import Mathlib

/-!
Shallow embedding of the condition evaluator of this repository:
`src/packages/conditions/src/executeCondition.ts` (the primary variant) and
`src/unnamed/part_000` (a second variant of the same file differing only in
the STRING_SIMILARITY branch).  JavaScript exceptions are modelled by `none`
in `Option Bool`; platform and collaborator functions that are not part of
the repository (`findUniqueVariable`, `parseVariables`, the `RegExp` engine,
`Number`, `Date.parse`) are parameters gathered in `Externals`.
-/

namespace Conditions

/-- Runtime value of a variable: a scalar string, an array of strings, or
`null`.  `null` also covers JS `undefined`, which the evaluator collapses
with `?? null` at the lookup site. -/
inductive Value where
  | str (s : String) : Value
  | arr (xs : List String) : Value
  | null : Value
deriving DecidableEq

/-- A `{ id, value }` binding from the external binding store. -/
structure Variable where
  id : String
  value : Value
deriving DecidableEq

/-- The operator enum of `constants.ts`. -/
inductive ComparisonOperators where
  | EQUAL
  | NOT_EQUAL
  | CONTAINS
  | NOT_CONTAINS
  | GREATER
  | LESS
  | IS_SET
  | IS_EMPTY
  | STARTS_WITH
  | ENDS_WITH
  | MATCHES_REGEX
  | NOT_MATCH_REGEX
  | STRING_SIMILARITY
deriving DecidableEq

/-- The logical-operator enum of `constants.ts`. -/
inductive LogicalOperator where
  | AND
  | OR
deriving DecidableEq

/-- One `(variableId, comparisonOperator, value)` triple; every field may be
absent (`undefined` in the schema). -/
structure Comparison where
  variableId : Option String
  comparisonOperator : Option ComparisonOperators
  value : Option String
deriving DecidableEq

/-- A logical operator plus an optional list of comparisons.  The code only
tests `logicalOperator === AND`, so absence is representable. -/
structure Condition where
  logicalOperator : Option LogicalOperator
  comparisons : Option (List Comparison)

/-- Modelled from the spec: the external collaborators and platform
primitives the evaluator calls but which are implemented outside this
repository.  `findUniqueVariable` returns the value of the variable uniquely
named by the argument, if any (spec section 6, variable resolver);
`parseVariables` substitutes variable placeholders in a string (spec section
6, text interpolation); `regexCompile pat flags` is the JS `RegExp`
constructor plus `.test`, returning `none` when the constructor would throw
on an invalid pattern; `numberParse` is JS `Number()` and `dateParse` is JS
`Date.parse`, both returning `none` for `NaN`. -/
structure Externals where
  findUniqueVariable : List Variable → Option String → Option Value
  parseVariables : List Variable → Option String → String
  regexCompile : String → Option String → Option (String → Bool)
  numberParse : String → Option Rat
  dateParse : String → Option Rat

/-- JS `Array.prototype.every` over a predicate that may throw (`none`):
left-to-right, short-circuits on `false`, propagates the first exception. -/
def jsEvery {α : Type} (p : α → Option Bool) : List α → Option Bool
  | [] => some true
  | x :: xs =>
    match p x with
    | none => none
    | some false => some false
    | some true => jsEvery p xs

/-- JS `Array.prototype.some` over a predicate that may throw (`none`):
left-to-right, short-circuits on `true`, propagates the first exception. -/
def jsAny {α : Type} (p : α → Option Bool) : List α → Option Bool
  | [] => some false
  | x :: xs =>
    match p x with
    | none => none
    | some true => some true
    | some false => jsAny p xs

/-- JS `String.prototype.normalize()` (Unicode NFC).  Modelled as the
identity, which is exact on NFC-normal strings; every concrete string in
this development is ASCII and hence NFC-normal. -/
def jsNormalize (s : String) : String := s

/-- Whitespace stripped by JS `String.prototype.trim` (the ASCII subset,
which covers every string considered here). -/
def isJsWhitespace (c : Char) : Bool :=
  c == ' ' || c == '\t' || c == '\n' || c == '\r' || c == '\x0b' || c == '\x0c'

/-- JS `toLowerCase` (Unicode simple lowercasing, which on the ASCII range
is `Char.toLower`), written over the character list so it evaluates. -/
def jsToLower (s : String) : String := String.mk (s.data.map Char.toLower)

/-- JS `trim`: strip leading and trailing whitespace. -/
def jsTrim (s : String) : String :=
  String.mk (((s.data.dropWhile isJsWhitespace).reverse.dropWhile
    isJsWhitespace).reverse)

/-- The `a.toLowerCase().trim().normalize()` pipeline applied by the string
predicates of the source. -/
def normLowerTrim (s : String) : String := jsNormalize (jsTrim (jsToLower s))

/-- JS `s.split(sep)` for a single-character separator (`"".split` gives
`[""]`). -/
def splitOnChar (sep : Char) : List Char → List (List Char)
  | [] => [[]]
  | c :: rest =>
    match splitOnChar sep rest with
    | [] => [[]]
    | h :: t => if c == sep then [] :: h :: t else (c :: h) :: t

/-- JS `s.split(sep)` returning strings. -/
def jsSplit (s : String) (sep : Char) : List String :=
  (splitOnChar sep s.data).map String.mk

/-- Decimal parser backing the witness externals' `Number()`: `some n`
exactly on nonempty all-digit strings. -/
def parseNatDec (s : String) : Option Nat :=
  if s.data = [] then none
  else if s.data.all (fun c => c.isDigit) then
    some (s.data.foldl (fun acc c => 10 * acc + (c.toNat - 48)) 0)
  else none

/-- JS `a.includes(b)`: `b` occurs as a contiguous substring of `a`. -/
def strIncludes (a b : String) : Bool := decide (b.data <:+: a.data)

/-- The reduction-mode argument of `compare` (the source strings `"every"`
and `"some"`, with `"every"` the default). -/
inductive CmpMode where
  | every
  | some

/-- The `string | null` view of a non-array value, as passed to the scalar
predicates (`null` becomes `none`); never applied to arrays by `compare`. -/
def Value.scalar? : Value → Option String
  | Value.str s => Option.some s
  | _ => Option.none

/-- The broadcasting combinator `compare` of the source: a non-array side is
passed to the predicate directly (`!a || typeof a === "string"`), an array
side is reduced with `every` or `some` according to `type`. -/
def compare (p : Option String → Option String → Option Bool) (a b : Value)
    (type : CmpMode) : Option Bool :=
  match a with
  | Value.arr av =>
    match b with
    | Value.arr bv =>
      match type with
      | CmpMode.every => jsEvery (fun x => jsEvery (fun y => p (some x) (some y)) bv) av
      | CmpMode.some => jsAny (fun x => jsAny (fun y => p (some x) (some y)) bv) av
    | _ =>
      match type with
      | CmpMode.every => jsEvery (fun x => p (some x) b.scalar?) av
      | CmpMode.some => jsAny (fun x => p (some x) b.scalar?) av
  | _ =>
    match b with
    | Value.arr bv =>
      match type with
      | CmpMode.every => jsEvery (fun y => p a.scalar? (some y)) bv
      | CmpMode.some => jsAny (fun y => p a.scalar? (some y)) bv
    | _ => p a.scalar? b.scalar?

/-- The local `equal` of the CONTAINS array branch: normalized equality when
both sides are strings, otherwise JS `a !== b`. -/
def equalPred (a b : Option String) : Option Bool :=
  some
    (match a, b with
      | some x, some y => jsNormalize x == jsNormalize y
      | _, _ => a != b)

/-- The local `notEqual` of the NOT_CONTAINS array branch. -/
def notEqualPred (a b : Option String) : Option Bool :=
  some
    (match a, b with
      | some x, some y => jsNormalize x != jsNormalize y
      | _, _ => a != b)

/-- The inline predicate of the EQUAL case: normalized equality when both
sides are strings, otherwise JS `a === b`. -/
def equalOpPred (a b : Option String) : Option Bool :=
  some
    (match a, b with
      | some x, some y => jsNormalize x == jsNormalize y
      | _, _ => a == b)

/-- The inline predicate of the NOT_EQUAL case. -/
def notEqualOpPred (a b : Option String) : Option Bool :=
  some
    (match a, b with
      | some x, some y => jsNormalize x != jsNormalize y
      | _, _ => a != b)

/-- The local `contains` of the scalar CONTAINS branch: `false` when the
target is empty or null or the input is falsy, else a normalized,
lowercased, trimmed substring test. -/
def containsPred (a b : Option String) : Option Bool :=
  match b with
  | none => some false
  | some bs =>
    if bs = "" then some false
    else
      match a with
      | none => some false
      | some av =>
        if av = "" then some false
        else some (strIncludes (normLowerTrim av) (normLowerTrim bs))

/-- The local `notContains` of the scalar NOT_CONTAINS branch: `true` on the
guard, else the negated substring test. -/
def notContainsPred (a b : Option String) : Option Bool :=
  match b with
  | none => some true
  | some bs =>
    if bs = "" then some true
    else
      match a with
      | none => some true
      | some av =>
        if av = "" then some true
        else some (!strIncludes (normLowerTrim av) (normLowerTrim bs))

/-- The local `startsWith` of the STARTS_WITH case. -/
def startsWithPred (a b : Option String) : Option Bool :=
  match b with
  | none => some false
  | some bs =>
    if bs = "" then some false
    else
      match a with
      | none => some false
      | some av =>
        if av = "" then some false
        else some (List.isPrefixOf (normLowerTrim bs).data (normLowerTrim av).data)

/-- The local `endsWith` of the ENDS_WITH case. -/
def endsWithPred (a b : Option String) : Option Bool :=
  match b with
  | none => some false
  | some bs =>
    if bs = "" then some false
    else
      match a with
      | none => some false
      | some av =>
        if av = "" then some false
        else some (List.isSuffixOf (normLowerTrim bs).data (normLowerTrim av).data)

/-- Result of `preprocessRegex`: captured pattern and, when the
`/pattern/flags` literal form matched, the flags group. -/
structure RegexParts where
  pattern : String
  flags : Option String
deriving DecidableEq

/-- Character class `[gimuy]` of the literal-detection regex. -/
def isRegexFlag (c : Char) : Bool :=
  c == 'g' || c == 'i' || c == 'm' || c == 'u' || c == 'y'

/-- JS line terminators, which `.` does not match. -/
def isLineTerminator (c : Char) : Bool :=
  c == '\n' || c == '\r' || c == '\u2028' || c == '\u2029'

/-- Whether `rest` can be read as `mid ++ "/" ++ flags` with `mid` of length
`k`: `mid` (the group `(.+)`) nonempty and free of line terminators, a
literal `/`, then `flags` (the group `([gimuy]*)` anchored by `$`). -/
def validSplitAt (rest : List Char) (k : Nat) : Bool :=
  decide (1 ≤ k) && ((rest.drop k).head? == Option.some '/')
    && (rest.take k).all (fun c => !isLineTerminator c)
    && (rest.drop (k + 1)).all isRegexFlag

/-- The greedy choice of the group `(.+)`: the longest valid `mid`, as the
backtracking JS engine produces.  `List.range` is ascending, so the last
valid split length is the greatest. -/
def greedyMid (rest : List Char) : Option (List Char × List Char) :=
  match ((List.range (rest.length + 1)).filter (validSplitAt rest)).getLast? with
  | Option.some k => Option.some (rest.take k, rest.drop (k + 1))
  | Option.none => Option.none

/-- Leftmost match of `\/(.+)\/([gimuy]*)$`: scan for the first `/` from
which the rest of the string completes a match, returning the two captured
groups. -/
def regexLiteralSplit : List Char → Option (List Char × List Char)
  | [] => Option.none
  | c :: rest =>
    if c == '/' then
      match greedyMid rest with
      | Option.some r => Option.some r
      | Option.none => regexLiteralSplit rest
    else regexLiteralSplit rest

/-- `preprocessRegex` of the source: split a `/pattern/flags` literal into
its parts, otherwise the whole string is the pattern and flags are absent. -/
def preprocessRegex (regex : String) : RegexParts :=
  match regexLiteralSplit regex.data with
  | Option.some (mid, fl) => ⟨String.mk mid, Option.some (String.mk fl)⟩
  | Option.none => ⟨regex, Option.none⟩

/-- The local `matchesRegex` of the MATCHES_REGEX case: `false` on the
guard, `false` for an empty captured pattern, else construct the regex and
test; an invalid pattern makes the constructor throw (`none`). -/
def matchesRegexPred (ext : Externals) (a b : Option String) : Option Bool :=
  match b with
  | none => some false
  | some bs =>
    if bs = "" then some false
    else
      match a with
      | none => some false
      | some av =>
        if av = "" then some false
        else
          let r := preprocessRegex bs
          if r.pattern = "" then some false
          else
            match ext.regexCompile r.pattern r.flags with
            | none => none
            | some test => some (test av)

/-- The local `matchesRegex` of the NOT_MATCH_REGEX case: identical guard
returning `false`, `true` for an empty captured pattern, else the negated
test; an invalid pattern throws (`none`). -/
def notMatchRegexPred (ext : Externals) (a b : Option String) : Option Bool :=
  match b with
  | none => some false
  | some bs =>
    if bs = "" then some false
    else
      match a with
      | none => some false
      | some av =>
        if av = "" then some false
        else
          let r := preprocessRegex bs
          if r.pattern = "" then some true
          else
            match ext.regexCompile r.pattern r.flags with
            | none => none
            | some test => some (!test av)

/-- JS `>` after numeric parsing, with `none` as `NaN`: any comparison
involving `NaN` is `false`. -/
def jsGt (a b : Option Rat) : Bool :=
  match a, b with
  | some x, some y => decide (x > y)
  | _, _ => false

/-- JS `<` after numeric parsing, with `none` as `NaN`. -/
def jsLt (a b : Option Rat) : Bool :=
  match a, b with
  | some x, some y => decide (x < y)
  | _, _ => false

/-- `parseDateOrNumber` of the source: `Number(value)`, falling back to
`Date.parse(value)` when the numeric parse is `NaN`. -/
def parseDateOrNumber (ext : Externals) (value : String) : Option Rat :=
  match ext.numberParse value with
  | some n => some n
  | none => ext.dateParse value

/-- The IS_SET test `isDefined(inputValue) && inputValue.length > 0`. -/
def isSetVal : Value → Bool
  | Value.null => false
  | Value.str s => decide (0 < s.length)
  | Value.arr l => decide (0 < l.length)

/-- The IS_EMPTY test `isNotDefined(inputValue) || inputValue.length === 0`. -/
def isEmptyVal : Value → Bool
  | Value.null => true
  | Value.str s => s.length == 0
  | Value.arr l => l.length == 0

/-- One entry of the character-frequency bag built by `getBagOfNumbers`
(count of `c` in the character list). -/
def charCount (c : Char) (l : List Char) : Nat :=
  (l.filter (fun d => d == c)).length

/-- Sum over all characters of the product of the two bags' frequencies (the
dot product of the frequency vectors); `bagDot l l` is the squared
magnitude. -/
def bagDot (l1 l2 : List Char) : Nat :=
  (((l1 ++ l2).dedup).map (fun c => charCount c l1 * charCount c l2)).sum

/-- The decision `compareStringsBagOfNumbers s1 s2 > 0.5` of the ts variant
(cosine similarity of lowercased character-frequency vectors): with `d` the
dot product and `n1`, `n2` the squared magnitudes, the similarity is 0 when
a magnitude is 0, and otherwise `d / (√n1·√n2) > 1/2 ↔ 4·d² > n1·n2`
since `d ≥ 0`. -/
def cosineGtHalf (s1 s2 : String) : Bool :=
  let l1 := (jsToLower s1).data
  let l2 := (jsToLower s2).data
  let d := bagDot l1 l2
  let n1 := bagDot l1 l1
  let n2 := bagDot l2 l2
  if n1 == 0 || n2 == 0 then false else decide (n1 * n2 < 4 * d * d)

/-- Inner loop of part_000's `levenshtein`: fill row `i` of the DP matrix
from column 1 on.  `bs` is the remaining suffix of `str2`, `left` is
`matrix[i][j-1]`, and `prev` is the suffix of row `i-1` starting at column
`j-1`; each entry is the minimum of deletion (`matrix[i-1][j] + 1`),
insertion (`matrix[i][j-1] + 1`) and substitution
(`matrix[i-1][j-1] + cost`). -/
def levRowAux (a : Char) : List Char → Nat → List Nat → List Nat
  | [], _, _ => []
  | _ :: _, _, [] => []
  | b :: bs, left, pd :: rest =>
    let cost := if a == b then 0 else 1
    let cur := min (min (rest.headD 0 + 1) (left + 1)) (pd + cost)
    cur :: levRowAux a bs cur rest

/-- Levenshtein edit distance (`levenshtein` of part_000): row 0 is
`0, 1, …, n`, each later row starts with its row index (`matrix[i][0] = i`)
and is filled by `levRowAux`; the answer is the bottom-right entry. -/
def levenshtein (l1 l2 : List Char) : Nat :=
  let row0 := List.range (l2.length + 1)
  let final := l1.foldl
    (fun prev a =>
      let first := prev.headD 0 + 1
      first :: levRowAux a l2 first prev)
    row0
  final.getLastD 0

/-- The decision `(maxLength − distance) / maxLength > 0.8` of part_000's
`compareStringsBagOfNumbers` (Levenshtein similarity); when both strings are
empty the JS quotient is `0/0 = NaN`, which is not `> 0.8`. -/
def levSimGtThreshold (s1 s2 : String) : Bool :=
  let d := levenshtein s1.data s2.data
  let m := max s1.length s2.length
  if m == 0 then false else decide (4 * m < 5 * (m - d))

/-- The STRING_SIMILARITY branch of
src/packages/conditions/src/executeCondition.ts: for a scalar-string input
it splits `value` on `|`, tracks the maximum cosine similarity and compares
it with 0.5 — since every similarity is nonnegative and the running maximum
starts at 0, `max > 0.5` iff some candidate's similarity exceeds 0.5.
`value.split("|")` throws a TypeError (`none`) when `value` is `null` or an
array. -/
def stringSimilarityCosine (inputValue value : Value) : Option Bool :=
  match inputValue with
  | Value.str s =>
    match value with
    | Value.str v => some ((jsSplit v '|').any (fun val => cosineGtHalf s val))
    | _ => none
  | _ => some false

/-- The STRING_SIMILARITY branch of src/unnamed/part_000
(`compararValores`): a non-string input, or a falsy or non-string `value`,
gives `false`; otherwise the maximum Levenshtein similarity over the
`|`-separated candidates is compared with 0.8. -/
def stringSimilarityLev (inputValue value : Value) : Option Bool :=
  match inputValue with
  | Value.str s =>
    match value with
    | Value.str v =>
      if v = "" then some false
      else some ((jsSplit v '|').any (fun val => levSimGtThreshold s val))
    | _ => some false
  | _ => some false

/-- The input-value lookup
`variables.find((v) => v.id === comparison.variableId)?.value ?? null`. -/
def lookupValue (vars : List Variable) (vid : String) : Value :=
  match vars.find? (fun v => v.id == vid) with
  | some v => v.value
  | none => Value.null

/-- The right-hand-side resolution: the literal strings `"undefined"` and
`"null"` give `null`; otherwise the unique-variable lookup, falling through
(`?.value ??`) to text interpolation when it yields nothing or a nullish
value. -/
def resolveValue (ext : Externals) (vars : List Variable)
    (v : Option String) : Value :=
  if v == some "undefined" || v == some "null" then Value.null
  else
    match ext.findUniqueVariable vars v with
    | some (Value.str s) => Value.str s
    | some (Value.arr l) => Value.arr l
    | _ => Value.str (ext.parseVariables vars v)

/-- `executeComparison` of the source, parameterized by the
STRING_SIMILARITY branch `ss` — the single point where the two source
variants differ.  A missing or empty `variableId` and a missing
`comparisonOperator` short-circuit to `false`; exceptions are `none`. -/
def executeComparisonWith (ss : Value → Value → Option Bool) (ext : Externals)
    (vars : List Variable) (comparison : Comparison) : Option Bool :=
  match comparison.variableId with
  | none => some false
  | some vid =>
    if vid = "" then some false
    else
      let inputValue := lookupValue vars vid
      let value := resolveValue ext vars comparison.value
      match comparison.comparisonOperator with
      | none => some false
      | some op =>
        match op with
        | ComparisonOperators.CONTAINS =>
          match inputValue with
          | Value.arr l => compare equalPred (Value.arr l) value CmpMode.some
          | _ => compare containsPred inputValue value CmpMode.some
        | ComparisonOperators.NOT_CONTAINS =>
          match inputValue with
          | Value.arr l => compare notEqualPred (Value.arr l) value CmpMode.every
          | _ => compare notContainsPred inputValue value CmpMode.every
        | ComparisonOperators.EQUAL =>
          compare equalOpPred inputValue value CmpMode.every
        | ComparisonOperators.NOT_EQUAL =>
          compare notEqualOpPred inputValue value CmpMode.every
        | ComparisonOperators.GREATER =>
          match inputValue, value with
          | Value.null, _ => some false
          | _, Value.null => some false
          | Value.str s, Value.str t =>
            some (jsGt (parseDateOrNumber ext s) (parseDateOrNumber ext t))
          | Value.str s, Value.arr l =>
            some (jsGt (ext.numberParse s) (some ((l.length : Nat) : Rat)))
          | Value.arr l, Value.str t =>
            some (jsGt (some ((l.length : Nat) : Rat)) (ext.numberParse t))
          | Value.arr l, Value.arr m => some (decide (m.length < l.length))
        | ComparisonOperators.LESS =>
          match inputValue, value with
          | Value.null, _ => some false
          | _, Value.null => some false
          | Value.str s, Value.str t =>
            some (jsLt (parseDateOrNumber ext s) (parseDateOrNumber ext t))
          | Value.str s, Value.arr l =>
            some (jsLt (ext.numberParse s) (some ((l.length : Nat) : Rat)))
          | Value.arr l, Value.str t =>
            some (jsLt (some ((l.length : Nat) : Rat)) (ext.numberParse t))
          | Value.arr l, Value.arr m => some (decide (l.length < m.length))
        | ComparisonOperators.IS_SET => some (isSetVal inputValue)
        | ComparisonOperators.IS_EMPTY => some (isEmptyVal inputValue)
        | ComparisonOperators.STARTS_WITH =>
          compare startsWithPred inputValue value CmpMode.every
        | ComparisonOperators.ENDS_WITH =>
          compare endsWithPred inputValue value CmpMode.every
        | ComparisonOperators.MATCHES_REGEX =>
          compare (matchesRegexPred ext) inputValue value CmpMode.some
        | ComparisonOperators.NOT_MATCH_REGEX =>
          compare (notMatchRegexPred ext) inputValue value CmpMode.every
        | ComparisonOperators.STRING_SIMILARITY => ss inputValue value

/-- `executeComparison` of src/packages/conditions/src/executeCondition.ts
(cosine STRING_SIMILARITY). -/
def executeComparison (ext : Externals) (vars : List Variable)
    (comparison : Comparison) : Option Bool :=
  executeComparisonWith stringSimilarityCosine ext vars comparison

/-- `executeComparison` of src/unnamed/part_000 (Levenshtein
STRING_SIMILARITY via `compararValores`). -/
def executeComparisonB (ext : Externals) (vars : List Variable)
    (comparison : Comparison) : Option Bool :=
  executeComparisonWith stringSimilarityLev ext vars comparison

/-- `executeCondition` of src/packages/conditions/src/executeCondition.ts:
`false` when `comparisons` is absent, `every` under AND, `some` otherwise. -/
def executeCondition (ext : Externals) (condition : Condition)
    (vars : List Variable) : Option Bool :=
  match condition.comparisons with
  | none => some false
  | some comps =>
    match condition.logicalOperator with
    | some LogicalOperator.AND => jsEvery (executeComparison ext vars) comps
    | _ => jsAny (executeComparison ext vars) comps

/-- `executeCondition` of src/unnamed/part_000. -/
def executeConditionB (ext : Externals) (condition : Condition)
    (vars : List Variable) : Option Bool :=
  match condition.comparisons with
  | none => some false
  | some comps =>
    match condition.logicalOperator with
    | some LogicalOperator.AND => jsEvery (executeComparisonB ext vars) comps
    | _ => jsAny (executeComparisonB ext vars) comps

/-- Concrete externals for closed evaluations: no string uniquely names a
variable, interpolation of a placeholder-free string is the string itself,
no pattern compiles, and `Number`/`Date.parse` parse nothing. -/
def extId : Externals where
  findUniqueVariable := fun _ _ => none
  parseVariables := fun _ v => v.getD ""
  regexCompile := fun _ _ => none
  numberParse := fun _ => none
  dateParse := fun _ => none

/-- Externals whose `Number()` parses nonnegative decimal integers (enough
for the concrete GREATER/LESS examples) and whose `Date.parse` parses
nothing. -/
def extNum : Externals where
  findUniqueVariable := fun _ _ => none
  parseVariables := fun _ v => v.getD ""
  regexCompile := fun _ _ => none
  numberParse := fun s => (parseNatDec s).map (fun n => (n : Rat))
  dateParse := fun _ => none

theorem jsEvery_pure {α : Type} (p : α → Bool) (l : List α) :
    jsEvery (fun x => some (p x)) l = some (l.all p) := by
  induction l with
  | nil => rfl
  | cons a t ih =>
    by_cases h : p a <;> simp [jsEvery, h, ih]

theorem jsAny_pure {α : Type} (p : α → Bool) (l : List α) :
    jsAny (fun x => some (p x)) l = some (l.any p) := by
  induction l with
  | nil => rfl
  | cons a t ih =>
    by_cases h : p a <;> simp [jsAny, h, ih]

theorem jsAny_some_true_iff {α : Type} (f : α → Option Bool) (l : List α)
    (h : ∀ x ∈ l, f x ≠ none) :
    jsAny f l = some true ↔ ∃ x ∈ l, f x = some true := by
  induction l with
  | nil => simp [jsAny]
  | cons a t ih =>
    have ha := h a (by simp)
    have ht : ∀ x ∈ t, f x ≠ none := fun x hx => h x (by simp [hx])
    cases hfa : f a with
    | none => exact absurd hfa ha
    | some b =>
      cases b with
      | true => simp [jsAny, hfa]
      | false => simp [jsAny, hfa, ih ht]

theorem jsEvery_congr {α : Type} (f g : α → Option Bool) (l : List α)
    (h : ∀ x ∈ l, f x = g x) : jsEvery f l = jsEvery g l := by
  induction l with
  | nil => rfl
  | cons a t ih =>
    have ha := h a (by simp)
    have ht := ih (fun x hx => h x (by simp [hx]))
    simp only [jsEvery, ha, ht]

theorem jsAny_congr {α : Type} (f g : α → Option Bool) (l : List α)
    (h : ∀ x ∈ l, f x = g x) : jsAny f l = jsAny g l := by
  induction l with
  | nil => rfl
  | cons a t ih =>
    have ha := h a (by simp)
    have ht := ih (fun x hx => h x (by simp [hx]))
    simp only [jsAny, ha, ht]

theorem isEmptyVal_eq_not_isSetVal (v : Value) : isEmptyVal v = !isSetVal v := by
  cases v with
  | null => rfl
  | str s =>
    by_cases h : s.length = 0
    · simp [isEmptyVal, isSetVal, h]
    · simp [isEmptyVal, isSetVal, h, Nat.pos_of_ne_zero h]
  | arr l =>
    by_cases h : l.length = 0
    · simp [isEmptyVal, isSetVal, h]
    · simp [isEmptyVal, isSetVal, h, Nat.pos_of_ne_zero h]

theorem executeComparisonWith_congr (ss1 ss2 : Value → Value → Option Bool)
    (ext : Externals) (vars : List Variable) (c : Comparison)
    (h : c.comparisonOperator ≠ some ComparisonOperators.STRING_SIMILARITY) :
    executeComparisonWith ss1 ext vars c = executeComparisonWith ss2 ext vars c := by
  unfold executeComparisonWith
  cases hv : c.variableId with
  | none => rfl
  | some vid =>
    by_cases hvid : vid = ""
    · simp [hvid]
    · simp only [if_neg hvid]
      cases ho : c.comparisonOperator with
      | none => rfl
      | some op =>
        cases op <;> first
          | rfl
          | exact absurd ho h

/-- C2: `executeCondition` fails closed on an absent `comparisons` list
(returning `false` for every logical-operator field), returns `true` for
AND over an empty comparison list, and `false` for OR over an empty list. -/
theorem executeCondition_topLevel_cases (ext : Externals) (vars : List Variable)
    (lo : Option LogicalOperator) :
    executeCondition ext ⟨lo, none⟩ vars = some false
      ∧ executeCondition ext ⟨some LogicalOperator.AND, some []⟩ vars = some true
      ∧ executeCondition ext ⟨some LogicalOperator.OR, some []⟩ vars = some false :=
  ⟨rfl, rfl, rfl⟩

/-- C10: for a defined comparisons list, every logical-operator field other
than `some AND` — including an absent one — selects OR (`some`) aggregation,
and when no comparison throws the result is `true` iff at least one
comparison evaluates to `true`; there is no fail-closed default for a
missing logical operator. -/
theorem executeCondition_or_default (ext : Externals) (vars : List Variable)
    (lo : Option LogicalOperator) (comps : List Comparison)
    (h : lo ≠ some LogicalOperator.AND) :
    executeCondition ext ⟨lo, some comps⟩ vars = jsAny (executeComparison ext vars) comps
      ∧ ((∀ c ∈ comps, executeComparison ext vars c ≠ none) →
          (executeCondition ext ⟨lo, some comps⟩ vars = some true
            ↔ ∃ c ∈ comps, executeComparison ext vars c = some true)) := by
  have heq : executeCondition ext ⟨lo, some comps⟩ vars
      = jsAny (executeComparison ext vars) comps := by
    cases lo with
    | none => rfl
    | some l =>
      cases l with
      | AND => exact absurd rfl h
      | OR => rfl
  exact ⟨heq, fun hnt => heq ▸ jsAny_some_true_iff _ _ hnt⟩

/-- Witness for C10 at a concrete OR condition over the empty list. -/
theorem executeCondition_or_default_witness :
    executeCondition extId ⟨some LogicalOperator.OR, some []⟩ []
        = jsAny (executeComparison extId []) []
      ∧ ((∀ c ∈ ([] : List Comparison), executeComparison extId [] c ≠ none) →
          (executeCondition extId ⟨some LogicalOperator.OR, some []⟩ [] = some true
            ↔ ∃ c ∈ ([] : List Comparison), executeComparison extId [] c = some true)) :=
  executeCondition_or_default extId [] (some LogicalOperator.OR) [] (by decide)

/-- C3: a comparison whose `variableId` is absent or empty, or whose
`comparisonOperator` is absent, evaluates to `false` (in particular it never
throws), for every binding list and every `value` field. -/
theorem executeComparison_missing_fields_false (ext : Externals)
    (vars : List Variable) (c : Comparison)
    (h : c.variableId = none ∨ c.variableId = some ""
      ∨ c.comparisonOperator = none) :
    executeComparison ext vars c = some false := by
  rcases h with h | h | h
  · simp [executeComparison, executeComparisonWith, h]
  · simp [executeComparison, executeComparisonWith, h]
  · cases hv : c.variableId with
    | none => simp [executeComparison, executeComparisonWith, hv]
    | some vid =>
      by_cases hvid : vid = ""
      · simp [executeComparison, executeComparisonWith, hv, hvid]
      · simp [executeComparison, executeComparisonWith, hv, hvid, h]

/-- Witness for C3 at a comparison with no `variableId`. -/
theorem executeComparison_missing_fields_false_witness :
    executeComparison extId [] ⟨none, some ComparisonOperators.EQUAL, none⟩
      = some false :=
  executeComparison_missing_fields_false extId [] _ (Or.inl rfl)

/-- C9: for a comparison with a well-formed `variableId`, IS_SET and
IS_EMPTY both always return a boolean, and the two booleans are exact
complements whatever shape — scalar string, array of strings, or null — the
looked-up input value has. -/
theorem isSet_isEmpty_complement (ext : Externals) (vars : List Variable)
    (vid : String) (v : Option String) (h : vid ≠ "") :
    executeComparison ext vars ⟨some vid, some ComparisonOperators.IS_SET, v⟩
        = some (isSetVal (lookupValue vars vid))
      ∧ executeComparison ext vars ⟨some vid, some ComparisonOperators.IS_EMPTY, v⟩
        = some (!isSetVal (lookupValue vars vid)) := by
  constructor
  · simp [executeComparison, executeComparisonWith, h]
  · simp [executeComparison, executeComparisonWith, h, isEmptyVal_eq_not_isSetVal]

/-- Witness for C9 at an unbound variable id. -/
theorem isSet_isEmpty_complement_witness :
    executeComparison extId [] ⟨some "v", some ComparisonOperators.IS_SET, none⟩
        = some (isSetVal (lookupValue [] "v"))
      ∧ executeComparison extId [] ⟨some "v", some ComparisonOperators.IS_EMPTY, none⟩
        = some (!isSetVal (lookupValue [] "v")) :=
  isSet_isEmpty_complement extId [] "v" none (by decide)

theorem matchesRegexPred_compile_none (ext : Externals) (av bs : String)
    (ha : av ≠ "") (hb : bs ≠ "") (hp : (preprocessRegex bs).pattern ≠ "")
    (hc : ext.regexCompile (preprocessRegex bs).pattern (preprocessRegex bs).flags
      = none) :
    matchesRegexPred ext (some av) (some bs) = none := by
  unfold matchesRegexPred
  simp only [if_neg ha, if_neg hb, if_neg hp, hc]

/-- C1 (evidence that the totality claim fails on the code, against the
spec's explicit never-throw principle): STRING_SIMILARITY with a
scalar-string input and a null right-hand side reaches `value.split("|")`
on `null` and throws a TypeError (`none`), which propagates out of
`executeCondition`; and a pattern the `RegExp` constructor rejects (such as
`"("`) makes MATCHES_REGEX throw, since nothing catches the constructor
call. -/
theorem executeCondition_throws_on_malformed (ext : Externals) :
    executeCondition ext
        ⟨some LogicalOperator.OR,
          some [⟨some "v1", some ComparisonOperators.STRING_SIMILARITY, some "null"⟩]⟩
        [⟨"v1", Value.str "Hello"⟩] = none
      ∧ (ext.findUniqueVariable [⟨"v1", Value.str "abc"⟩] (some "(") = none →
          ext.parseVariables [⟨"v1", Value.str "abc"⟩] (some "(") = "(" →
          ext.regexCompile "(" none = none →
          executeCondition ext
              ⟨some LogicalOperator.OR,
                some [⟨some "v1", some ComparisonOperators.MATCHES_REGEX, some "("⟩]⟩
              [⟨"v1", Value.str "abc"⟩] = none) := by
  constructor
  · rfl
  · intro h1 h2 h3
    have hr : resolveValue ext [⟨"v1", Value.str "abc"⟩] (some "(")
        = Value.str "(" := by
      unfold resolveValue
      rw [h1, h2]
      rfl
    have hm : matchesRegexPred ext (some "abc") (some "(") = none :=
      matchesRegexPred_compile_none ext "abc" "(" (by decide) (by decide)
        (by decide) h3
    have hc : executeComparison ext [⟨"v1", Value.str "abc"⟩]
        ⟨some "v1", some ComparisonOperators.MATCHES_REGEX, some "("⟩ = none := by
      show compare (matchesRegexPred ext) (Value.str "abc")
          (resolveValue ext [⟨"v1", Value.str "abc"⟩] (some "(")) CmpMode.some
        = none
      rw [hr]
      exact hm
    show jsAny (executeComparison ext [⟨"v1", Value.str "abc"⟩])
        [⟨some "v1", some ComparisonOperators.MATCHES_REGEX, some "("⟩] = none
    simp only [jsAny, hc]

/-- Witness for C1 at externals satisfying the resolution hypotheses. -/
theorem executeCondition_throws_on_malformed_witness :
    executeCondition extId
        ⟨some LogicalOperator.OR,
          some [⟨some "v1", some ComparisonOperators.STRING_SIMILARITY, some "null"⟩]⟩
        [⟨"v1", Value.str "Hello"⟩] = none
      ∧ executeCondition extId
          ⟨some LogicalOperator.OR,
            some [⟨some "v1", some ComparisonOperators.MATCHES_REGEX, some "("⟩]⟩
          [⟨"v1", Value.str "abc"⟩] = none :=
  ⟨(executeCondition_throws_on_malformed extId).1,
    (executeCondition_throws_on_malformed extId).2 rfl rfl rfl⟩

/-- C4 counterexample: NOT_MATCH_REGEX with the defined scalar-string input
`"abc"` and an empty target returns `false`, not `true` as the claim states
for an empty pattern (the guard `b === "" || !b || !a` returns `false` in
both regex cases, and the `!regex.pattern` branch that would return `true`
is unreachable for a nonempty target). -/
theorem notMatchRegex_emptyTarget_cex :
    executeComparison extId [⟨"v1", Value.str "abc"⟩]
      ⟨some "v1", some ComparisonOperators.NOT_MATCH_REGEX, some ""⟩
      = some false := rfl

/-- C4 amended: for a defined nonempty scalar-string input and a nonempty
target, the NOT_MATCH_REGEX per-pair predicate is the pointwise negation of
the MATCHES_REGEX one (exceptions propagating), and NOT_MATCH_REGEX
broadcasts with AND (`every`) reduction; but on the boundary — null input,
or null or empty target — the predicate returns `false`, not `true`, and an
invalid pattern throws rather than yielding `true`. -/
theorem notMatchRegex_negation_amended (ext : Externals) (vars : List Variable)
    (vid av bs : String) (v : Option String)
    (hvid : vid ≠ "") (ha : av ≠ "") (hb : bs ≠ "") :
    notMatchRegexPred ext (some av) (some bs)
        = Option.map (fun b => !b) (matchesRegexPred ext (some av) (some bs))
      ∧ notMatchRegexPred ext none (some bs) = some false
      ∧ notMatchRegexPred ext (some av) none = some false
      ∧ notMatchRegexPred ext (some av) (some "") = some false
      ∧ executeComparison ext vars
            ⟨some vid, some ComparisonOperators.NOT_MATCH_REGEX, v⟩
          = compare (notMatchRegexPred ext) (lookupValue vars vid)
              (resolveValue ext vars v) CmpMode.every := by
  refine ⟨?_, ?_, rfl, rfl, ?_⟩
  · unfold notMatchRegexPred matchesRegexPred
    simp only [if_neg ha, if_neg hb]
    by_cases hp : (preprocessRegex bs).pattern = ""
    · simp [hp]
    · simp only [if_neg hp]
      cases hcmp : ext.regexCompile (preprocessRegex bs).pattern
          (preprocessRegex bs).flags with
      | none => rfl
      | some test => rfl
  · simp [notMatchRegexPred, if_neg hb]
  · simp [executeComparison, executeComparisonWith, if_neg hvid]

/-- Witness for C4 at concrete strings. -/
theorem notMatchRegex_negation_amended_witness :
    notMatchRegexPred extId (some "x") (some "a")
        = Option.map (fun b => !b) (matchesRegexPred extId (some "x") (some "a"))
      ∧ notMatchRegexPred extId none (some "a") = some false
      ∧ notMatchRegexPred extId (some "x") none = some false
      ∧ notMatchRegexPred extId (some "x") (some "") = some false
      ∧ executeComparison extId []
            ⟨some "v", some ComparisonOperators.NOT_MATCH_REGEX, none⟩
          = compare (notMatchRegexPred extId) (lookupValue [] "v")
              (resolveValue extId [] none) CmpMode.every :=
  notMatchRegex_negation_amended extId [] "v" "x" "a" none (by decide) (by decide)
    (by decide)

theorem any_const_true {α : Type} (l : List α) :
    l.any (fun _ => true) = !l.isEmpty := by
  cases l <;> simp

/-- C5 counterexample: CONTAINS on the array input `["a"]` with a null
target (the literal `"null"`) returns `true`: the per-element fallback of
the source's `equal` is JS `a !== b`, not an equality-based membership test,
which would give `false` since `null` is not among the elements. -/
theorem contains_array_nullTarget_cex :
    executeComparison extId [⟨"v1", Value.arr ["a"]⟩]
      ⟨some "v1", some ComparisonOperators.CONTAINS, some "null"⟩
      = some true := rfl

/-- C5 amended: with an array input and a string target, CONTAINS is element
membership under normalized equality with OR reduction; with an array input
and a null target the per-element predicate degenerates to
`element !== null`, so every nonempty array yields `true`.  With a
scalar-string input and string target it is the case-insensitive, trimmed,
normalized substring test (`containsPred`), which is `false` for an empty
target; a null target gives `false`; and `"  Hello World  "` CONTAINS
`"hello"` is `true`. -/
theorem contains_semantics_amended (ext : Externals) (vars : List Variable)
    (vid t s : String) (v : Option String) (l : List String) (hvid : vid ≠ "") :
    (lookupValue vars vid = Value.arr l → resolveValue ext vars v = Value.str t →
        executeComparison ext vars ⟨some vid, some ComparisonOperators.CONTAINS, v⟩
          = some (l.any (fun x => jsNormalize x == jsNormalize t)))
      ∧ (lookupValue vars vid = Value.arr l → resolveValue ext vars v = Value.null →
          executeComparison ext vars ⟨some vid, some ComparisonOperators.CONTAINS, v⟩
            = some (!l.isEmpty))
      ∧ (lookupValue vars vid = Value.str s → resolveValue ext vars v = Value.str t →
          executeComparison ext vars ⟨some vid, some ComparisonOperators.CONTAINS, v⟩
            = containsPred (some s) (some t))
      ∧ (lookupValue vars vid = Value.str s → resolveValue ext vars v = Value.null →
          executeComparison ext vars ⟨some vid, some ComparisonOperators.CONTAINS, v⟩
            = some false)
      ∧ (t = "" → containsPred (some s) (some t) = some false)
      ∧ executeComparison extId [⟨"w", Value.str "  Hello World  "⟩]
          ⟨some "w", some ComparisonOperators.CONTAINS, some "hello"⟩ = some true := by
  have hne : ∀ x : String, ((some x : Option String) != none) = true := fun _ => rfl
  refine ⟨?_, ?_, ?_, ?_, ?_, by decide⟩
  · intro hin hrv
    simp [executeComparison, executeComparisonWith, if_neg hvid, hin, hrv, compare,
      Value.scalar?, equalPred, jsAny_pure]
  · intro hin hrv
    simp [executeComparison, executeComparisonWith, if_neg hvid, hin, hrv, compare,
      Value.scalar?, equalPred, hne, jsAny_pure, any_const_true]
  · intro hin hrv
    simp [executeComparison, executeComparisonWith, if_neg hvid, hin, hrv, compare,
      Value.scalar?]
  · intro hin hrv
    simp [executeComparison, executeComparisonWith, if_neg hvid, hin, hrv, compare,
      Value.scalar?, containsPred]
  · intro ht
    simp [containsPred, ht]

/-- Witness for C5: membership over the array `["a", "b"]` with target
`"b"`. -/
theorem contains_semantics_amended_witness :
    executeComparison extId [⟨"u", Value.arr ["a", "b"]⟩]
        ⟨some "u", some ComparisonOperators.CONTAINS, some "b"⟩
      = some ((["a", "b"] : List String).any
          (fun x => jsNormalize x == jsNormalize "b")) :=
  (contains_semantics_amended extId [⟨"u", Value.arr ["a", "b"]⟩] "u" "b" "x"
      (some "b") ["a", "b"] (by decide)).1 rfl rfl

theorem jsGt_nan_left (y : Option Rat) : jsGt none y = false := by
  cases y <;> rfl

theorem jsGt_nan_right (x : Option Rat) : jsGt x none = false := by
  cases x <;> rfl

theorem jsLt_nan_left (y : Option Rat) : jsLt none y = false := by
  cases y <;> rfl

theorem jsLt_nan_right (x : Option Rat) : jsLt x none = false := by
  cases x <;> rfl

/-- C6: GREATER/LESS on two scalar strings compare the results of
`parseDateOrNumber` — the numeric parse, falling back to the date parse
exactly when the numeric parse is `NaN` — so `"10"` GREATER `"2"` is
numerically `true`; a side that parses as neither number nor date makes
both GREATER and LESS return `false` rather than erroring, and a null side
(unbound input variable, or the literal `"null"` target) gives `false`. -/
theorem greater_less_numeric_parse (ext : Externals) (vars : List Variable)
    (vid s t tv : String) (hvid : vid ≠ "") :
    (lookupValue vars vid = Value.str s →
        resolveValue ext vars (some tv) = Value.str t →
        executeComparison ext vars ⟨some vid, some ComparisonOperators.GREATER, some tv⟩
            = some (jsGt (parseDateOrNumber ext s) (parseDateOrNumber ext t))
          ∧ executeComparison ext vars ⟨some vid, some ComparisonOperators.LESS, some tv⟩
            = some (jsLt (parseDateOrNumber ext s) (parseDateOrNumber ext t)))
      ∧ (∀ u, ext.numberParse u = none → parseDateOrNumber ext u = ext.dateParse u)
      ∧ (∀ u n, ext.numberParse u = some n → parseDateOrNumber ext u = some n)
      ∧ (lookupValue vars vid = Value.str s →
          resolveValue ext vars (some tv) = Value.str t →
          ext.numberParse s = none → ext.dateParse s = none →
          executeComparison ext vars ⟨some vid, some ComparisonOperators.GREATER, some tv⟩
              = some false
            ∧ executeComparison ext vars ⟨some vid, some ComparisonOperators.LESS, some tv⟩
              = some false)
      ∧ (lookupValue vars vid = Value.str s →
          resolveValue ext vars (some tv) = Value.str t →
          ext.numberParse t = none → ext.dateParse t = none →
          executeComparison ext vars ⟨some vid, some ComparisonOperators.GREATER, some tv⟩
              = some false
            ∧ executeComparison ext vars ⟨some vid, some ComparisonOperators.LESS, some tv⟩
              = some false)
      ∧ (lookupValue vars vid = Value.str s →
          executeComparison ext vars ⟨some vid, some ComparisonOperators.GREATER, some "null"⟩
              = some false
            ∧ executeComparison ext vars ⟨some vid, some ComparisonOperators.LESS, some "null"⟩
              = some false)
      ∧ (lookupValue vars vid = Value.null →
          executeComparison ext vars ⟨some vid, some ComparisonOperators.GREATER, some tv⟩
              = some false
            ∧ executeComparison ext vars ⟨some vid, some ComparisonOperators.LESS, some tv⟩
              = some false)
      ∧ (lookupValue vars vid = Value.str "10" →
          resolveValue ext vars (some tv) = Value.str "2" →
          ext.numberParse "10" = some 10 → ext.numberParse "2" = some 2 →
          executeComparison ext vars ⟨some vid, some ComparisonOperators.GREATER, some tv⟩
            = some true) := by
  have hG : ∀ s2 t2, lookupValue vars vid = Value.str s2 →
      resolveValue ext vars (some tv) = Value.str t2 →
      executeComparison ext vars ⟨some vid, some ComparisonOperators.GREATER, some tv⟩
        = some (jsGt (parseDateOrNumber ext s2) (parseDateOrNumber ext t2)) := by
    intro s2 t2 hin hrv
    simp [executeComparison, executeComparisonWith, if_neg hvid, hin, hrv]
  have hL : ∀ s2 t2, lookupValue vars vid = Value.str s2 →
      resolveValue ext vars (some tv) = Value.str t2 →
      executeComparison ext vars ⟨some vid, some ComparisonOperators.LESS, some tv⟩
        = some (jsLt (parseDateOrNumber ext s2) (parseDateOrNumber ext t2)) := by
    intro s2 t2 hin hrv
    simp [executeComparison, executeComparisonWith, if_neg hvid, hin, hrv]
  refine ⟨fun hin hrv => ⟨hG s t hin hrv, hL s t hin hrv⟩, ?_, ?_, ?_, ?_, ?_, ?_, ?_⟩
  · intro u hu
    simp [parseDateOrNumber, hu]
  · intro u n hu
    simp [parseDateOrNumber, hu]
  · intro hin hrv hnp hdp
    have hnan : parseDateOrNumber ext s = none := by
      simp [parseDateOrNumber, hnp, hdp]
    rw [hG s t hin hrv, hL s t hin hrv, hnan, jsGt_nan_left, jsLt_nan_left]
    exact ⟨rfl, rfl⟩
  · intro hin hrv hnp hdp
    have hnan : parseDateOrNumber ext t = none := by
      simp [parseDateOrNumber, hnp, hdp]
    rw [hG s t hin hrv, hL s t hin hrv, hnan, jsGt_nan_right, jsLt_nan_right]
    exact ⟨rfl, rfl⟩
  · intro hin
    constructor
    · simp [executeComparison, executeComparisonWith, if_neg hvid, hin, resolveValue]
    · simp [executeComparison, executeComparisonWith, if_neg hvid, hin, resolveValue]
  · intro hin
    constructor
    · simp [executeComparison, executeComparisonWith, if_neg hvid, hin]
    · simp [executeComparison, executeComparisonWith, if_neg hvid, hin]
  · intro hin hrv h10 h2
    rw [hG "10" "2" hin hrv]
    have p10 : parseDateOrNumber ext "10" = some 10 := by
      simp [parseDateOrNumber, h10]
    have p2 : parseDateOrNumber ext "2" = some 2 := by
      simp [parseDateOrNumber, h2]
    rw [p10, p2]
    norm_num [jsGt]

/-- Witness for C6: `"10"` GREATER `"2"` under integer-parsing externals. -/
theorem greater_less_numeric_parse_witness :
    executeComparison extNum [⟨"v", Value.str "10"⟩]
        ⟨some "v", some ComparisonOperators.GREATER, some "2"⟩ = some true :=
  (greater_less_numeric_parse extNum [⟨"v", Value.str "10"⟩] "v" "10" "2" "2"
      (by decide)).2.2.2.2.2.2.2 rfl rfl (by decide) (by decide)

/-- C7: STRING_SIMILARITY returns `false` for a non-string (null or array)
input value; for a scalar-string input and string target it splits the
target on `|` and is `true` iff the maximum per-candidate cosine similarity
exceeds the fixed 0.5 threshold (equivalently, since similarities are
nonnegative and the maximum starts at 0, iff some candidate exceeds it);
`"Hello"` against `"Hi|Hello|Hey"` is `true` and `"Xyz"` against the same
target is `false`. -/
theorem stringSimilarity_semantics (ext : Externals) (vars : List Variable)
    (vid s t : String) (v : Option String) (l : List String) (hvid : vid ≠ "") :
    (lookupValue vars vid = Value.null →
        executeComparison ext vars
          ⟨some vid, some ComparisonOperators.STRING_SIMILARITY, v⟩ = some false)
      ∧ (lookupValue vars vid = Value.arr l →
          executeComparison ext vars
            ⟨some vid, some ComparisonOperators.STRING_SIMILARITY, v⟩ = some false)
      ∧ (lookupValue vars vid = Value.str s → resolveValue ext vars v = Value.str t →
          executeComparison ext vars
              ⟨some vid, some ComparisonOperators.STRING_SIMILARITY, v⟩
            = some ((jsSplit t '|').any (fun cand => cosineGtHalf s cand)))
      ∧ executeComparison extId [⟨"w", Value.str "Hello"⟩]
          ⟨some "w", some ComparisonOperators.STRING_SIMILARITY, some "Hi|Hello|Hey"⟩
          = some true
      ∧ executeComparison extId [⟨"w", Value.str "Xyz"⟩]
          ⟨some "w", some ComparisonOperators.STRING_SIMILARITY, some "Hi|Hello|Hey"⟩
          = some false := by
  refine ⟨?_, ?_, ?_, by decide, by decide⟩
  · intro hin
    simp [executeComparison, executeComparisonWith, if_neg hvid, hin,
      stringSimilarityCosine]
  · intro hin
    simp [executeComparison, executeComparisonWith, if_neg hvid, hin,
      stringSimilarityCosine]
  · intro hin hrv
    simp [executeComparison, executeComparisonWith, if_neg hvid, hin, hrv,
      stringSimilarityCosine]

/-- Witness for C7 applying the scalar-string component. -/
theorem stringSimilarity_semantics_witness :
    executeComparison extId [⟨"w", Value.str "Hello"⟩]
        ⟨some "w", some ComparisonOperators.STRING_SIMILARITY, some "Hi|Hello|Hey"⟩
      = some ((jsSplit "Hi|Hello|Hey" '|').any
          (fun cand => cosineGtHalf "Hello" cand)) :=
  (stringSimilarity_semantics extId [⟨"w", Value.str "Hello"⟩] "w" "Hello"
      "Hi|Hello|Hey" (some "Hi|Hello|Hey") [] (by decide)).2.2.1 rfl rfl

/-- C8 counterexample: on a STRING_SIMILARITY comparison with a
scalar-string input and a null right-hand side the two variants diverge in
a way that is not a metric-or-threshold difference: the ts variant throws
(`value.split` on `null`, so no boolean is computed at all) while part_000's
guard returns `false`. -/
theorem variants_diverge_nonmetric_cex :
    executeCondition extId
        ⟨some LogicalOperator.OR,
          some [⟨some "w", some ComparisonOperators.STRING_SIMILARITY, some "null"⟩]⟩
        [⟨"w", Value.str "Hola"⟩] = none
      ∧ executeConditionB extId
          ⟨some LogicalOperator.OR,
            some [⟨some "w", some ComparisonOperators.STRING_SIMILARITY, some "null"⟩]⟩
          [⟨"w", Value.str "Hola"⟩] = some false :=
  ⟨rfl, rfl⟩

/-- C8 amended: the two source variants compute equal results on every
condition whose comparisons all use an operator other than
STRING_SIMILARITY; on STRING_SIMILARITY they diverge both in metric and
threshold — cosine similarity over character-frequency vectors with
threshold 0.5 in src/packages/conditions/src/executeCondition.ts against
normalized Levenshtein with threshold 0.8 in src/unnamed/part_000, e.g.
input `"ab"` against target `"ba"` — and in the guarding of a null or
non-string right-hand side, where part_000 returns `false` but the ts
variant throws. -/
theorem variants_agree_without_similarity (ext : Externals)
    (vars : List Variable) (cond : Condition)
    (h : ∀ cs, cond.comparisons = some cs →
      ∀ c ∈ cs, c.comparisonOperator ≠ some ComparisonOperators.STRING_SIMILARITY) :
    executeCondition ext cond vars = executeConditionB ext cond vars
      ∧ executeComparison extId [⟨"w", Value.str "ab"⟩]
          ⟨some "w", some ComparisonOperators.STRING_SIMILARITY, some "ba"⟩
          = some true
      ∧ executeComparisonB extId [⟨"w", Value.str "ab"⟩]
          ⟨some "w", some ComparisonOperators.STRING_SIMILARITY, some "ba"⟩
          = some false := by
  refine ⟨?_, by decide, by decide⟩
  unfold executeCondition executeConditionB
  cases hcs : cond.comparisons with
  | none => rfl
  | some cs =>
    have hall : ∀ c ∈ cs, executeComparison ext vars c = executeComparisonB ext vars c :=
      fun c hc => executeComparisonWith_congr _ _ ext vars c (h cs hcs c hc)
    cases cond.logicalOperator with
    | none => exact jsAny_congr _ _ cs hall
    | some lop =>
      cases lop with
      | AND => exact jsEvery_congr _ _ cs hall
      | OR => exact jsAny_congr _ _ cs hall

/-- Witness for C8 at a one-comparison EQUAL condition. -/
theorem variants_agree_without_similarity_witness :
    executeCondition extId
        ⟨some LogicalOperator.AND,
          some [⟨some "w", some ComparisonOperators.EQUAL, some "x"⟩]⟩ []
      = executeConditionB extId
          ⟨some LogicalOperator.AND,
            some [⟨some "w", some ComparisonOperators.EQUAL, some "x"⟩]⟩ []
      ∧ executeComparison extId [⟨"w", Value.str "ab"⟩]
          ⟨some "w", some ComparisonOperators.STRING_SIMILARITY, some "ba"⟩
          = some true
      ∧ executeComparisonB extId [⟨"w", Value.str "ab"⟩]
          ⟨some "w", some ComparisonOperators.STRING_SIMILARITY, some "ba"⟩
          = some false :=
  variants_agree_without_similarity extId []
    ⟨some LogicalOperator.AND,
      some [⟨some "w", some ComparisonOperators.EQUAL, some "x"⟩]⟩
    (by
      intro cs hcs c hc
      cases hcs
      simp only [List.mem_singleton] at hc
      subst hc
      decide)

end Conditions
